import Mathlib

/-
Verification of the filtering-and-aggregation pipeline of the financial
performance dashboard (src/fp.py).  The pandas data frame is modelled as a
list of records; a numeric cell is an Option of a rational number, where
none plays the role of a missing value (NaN) produced by coercion failure.
-/

namespace FP

attribute [local semireducible] Rat.mul Rat.add Rat.sub Rat.inv

/-- Calendar date as produced by parsing an ISO formatted date cell. -/
structure Date where
  year : Nat
  month : Nat
  day : Nat
deriving DecidableEq

/-- Lexicographic order on dates, mirroring the comparison of date values
in the filter (df.Date.dt.date compared with the selected range ends). -/
def dateLe (a b : Date) : Bool :=
  decide (a.year < b.year ∨
    (a.year = b.year ∧ (a.month < b.month ∨
      (a.month = b.month ∧ a.day ≤ b.day))))

/-- Numeric value of a list of decimal digit characters. -/
def digitsVal (cs : List Char) : Nat :=
  cs.foldl (fun n c => n * 10 + (c.toNat - 48)) 0

/-- Parse a nonempty all-digit character list as a natural number. -/
def parseNatL (cs : List Char) : Option Nat :=
  if cs ≠ [] ∧ cs.all Char.isDigit then some (digitsVal cs) else none

/-- Split a character list on a separator character. -/
def splitOnChar (sep : Char) : List Char → List (List Char)
  | [] => [[]]
  | c :: rest =>
    let r := splitOnChar sep rest
    if c = sep then [] :: r
    else
      match r with
      | [] => [[c]]
      | h :: t => (c :: h) :: t

/-- Drop leading and trailing whitespace, as the pandas str.strip does. -/
def trimChars (cs : List Char) : List Char :=
  ((cs.dropWhile Char.isWhitespace).reverse.dropWhile Char.isWhitespace).reverse

/-- Model of pd.to_datetime with coercion on an ISO year-month-day cell:
a cell that does not have the shape digits-digits-digits with a plausible
month and day coerces to a missing value, so the row is dropped later. -/
def parseDate (s : String) : Option Date :=
  match splitOnChar ('-') (trimChars s.data) with
  | [y, m, d] =>
    match parseNatL y, parseNatL m, parseNatL d with
    | some yn, some mn, some dn =>
      if 1 ≤ mn ∧ mn ≤ 12 ∧ 1 ≤ dn ∧ dn ≤ 31 then some ⟨yn, mn, dn⟩ else none
    | _, _, _ => none
  | _ => none

/-- Model of pd.to_numeric with coercion restricted to plain decimal
numerals: an optional sign, an integer part and an optional fractional
part separated by a dot, at least one digit in total.  Anything else
coerces to a missing value. -/
def parseDecimal (s : String) : Option ℚ :=
  let cs := s.data
  let signAndRest : ℚ × List Char :=
    match cs with
    | '-' :: rest => (-1, rest)
    | '+' :: rest => (1, rest)
    | _ => (1, cs)
  let body := signAndRest.2
  let intPart := body.takeWhile Char.isDigit
  let rest := body.dropWhile Char.isDigit
  match rest with
  | [] =>
    if intPart = [] then none
    else some (signAndRest.1 * (digitsVal intPart : ℚ))
  | '.' :: frac =>
    if frac.all Char.isDigit ∧ ¬(intPart = [] ∧ frac = []) then
      some (signAndRest.1 *
        ((digitsVal intPart : ℚ) + (digitsVal frac : ℚ) / (10 : ℚ) ^ frac.length))
    else none
  | _ => none

/-- Cleaning applied by load to every configured currency column:
remove every dollar character, remove every comma, then strip the
surrounding whitespace (str.replace with regex disabled removes all
occurrences, not only a leading symbol). -/
def cleanCurrency (s : String) : String :=
  String.mk (trimChars ((s.data.filter (fun c => c ≠ '$')).filter (fun c => c ≠ ',')))

/-- Whole currency-cell pipeline of load: clean, then coerce to a number. -/
def parseCurrency (s : String) : Option ℚ :=
  parseDecimal (cleanCurrency s)

/-- Drop one leading dollar character, if present. -/
def dropLeadingDollar : List Char → List Char
  | [] => []
  | c :: rest => if c = '$' then rest else c :: rest

/-- Cleaning policy as worded by the specification, for comparison with
cleanCurrency: strip only a literal leading dollar sign, remove the comma
separators, trim whitespace.  This definition follows the wording of the
specification, not the code, and exists to settle the refinement claim. -/
def cleanCurrencySpec (s : String) : String :=
  String.mk (trimChars ((dropLeadingDollar s.data).filter (fun c => c ≠ ',')))

/-- One raw CSV row, with every configured currency column and the date
still a string cell.  The optional operating expenses column is carried
as an already numeric optional value because it is not in the list of
currency columns that load cleans; none also covers an absent column. -/
structure RawRow where
  country : String
  segment : String
  product : String
  discountBand : String
  date : String
  unitsSold : String
  manufacturingPrice : String
  salePrice : String
  grossSales : String
  discounts : String
  sales : String
  cogs : String
  profit : String
  operatingExpenses : Option ℚ
deriving DecidableEq

/-- One cleaned, typed record of the working data frame, with the derived
columns computed by load. -/
structure Record where
  country : String
  segment : String
  product : String
  discountBand : String
  date : Date
  unitsSold : Option ℚ
  manufacturingPrice : Option ℚ
  salePrice : Option ℚ
  grossSales : Option ℚ
  discounts : Option ℚ
  sales : Option ℚ
  cogs : Option ℚ
  profit : Option ℚ
  operatingExpenses : Option ℚ
  year : Nat
  monthName : String
  quarter : String
  profitMargin : Option ℚ
  totalDiscounts : Option ℚ
  totalRevenue : Option ℚ
  cogsToSales : Option ℚ
  netSales : Option ℚ
deriving DecidableEq

/-- The pandas replace of the value 0 by a missing value. -/
def replaceZero (x : Option ℚ) : Option ℚ :=
  if x = some 0 then none else x

/-- Division on possibly missing values: missing in, missing out. -/
def optDiv (a b : Option ℚ) : Option ℚ :=
  match a, b with
  | some x, some y => some (x / y)
  | _, _ => none

/-- Subtraction on possibly missing values: missing in, missing out. -/
def optSub (a b : Option ℚ) : Option ℚ :=
  match a, b with
  | some x, some y => some (x - y)
  | _, _ => none

/-- Absolute value on possibly missing values. -/
def optAbs (a : Option ℚ) : Option ℚ :=
  a.map (fun x => |x|)

/-- The pandas fillna: replace a missing value by the given default. -/
def fillna (v : ℚ) (x : Option ℚ) : Option ℚ :=
  some (x.getD v)

/-- Month name of a month number, as the dt.month_name accessor yields. -/
def monthNameOf (m : Nat) : String :=
  match m with
  | 1 => "January"
  | 2 => "February"
  | 3 => "March"
  | 4 => "April"
  | 5 => "May"
  | 6 => "June"
  | 7 => "July"
  | 8 => "August"
  | 9 => "September"
  | 10 => "October"
  | 11 => "November"
  | 12 => "December"
  | _ => ""

/-- Quarter number of a month number, as the dt.quarter accessor yields. -/
def quarterOf (m : Nat) : Nat :=
  (m + 2) / 3

/-- Per-row load pipeline of load_data: coerce the date cell and drop the
row when it fails, clean and coerce every currency cell, then derive
year, month name, quarter, profit margin, total discounts, total revenue,
cogs-to-sales and net sales; finally fillna 0 is applied to the profit
margin and the cogs-to-sales columns only. -/
def loadRow (row : RawRow) : Option Record :=
  match parseDate row.date with
  | none => none
  | some d =>
    let unitsSold := parseCurrency row.unitsSold
    let manufacturingPrice := parseCurrency row.manufacturingPrice
    let salePrice := parseCurrency row.salePrice
    let grossSales := parseCurrency row.grossSales
    let discounts := parseCurrency row.discounts
    let sales := parseCurrency row.sales
    let cogs := parseCurrency row.cogs
    let profit := parseCurrency row.profit
    let totalDiscounts := optAbs discounts
    some
      { country := row.country
        segment := row.segment
        product := row.product
        discountBand := row.discountBand
        date := d
        unitsSold := unitsSold
        manufacturingPrice := manufacturingPrice
        salePrice := salePrice
        grossSales := grossSales
        discounts := discounts
        sales := sales
        cogs := cogs
        profit := profit
        operatingExpenses := row.operatingExpenses
        year := d.year
        monthName := monthNameOf d.month
        quarter := "Qtr " ++ toString (quarterOf d.month)
        profitMargin := fillna 0 (optDiv profit (replaceZero sales))
        totalDiscounts := totalDiscounts
        totalRevenue := grossSales
        cogsToSales := fillna 0 (optDiv cogs (replaceZero sales))
        netSales := optSub grossSales totalDiscounts }

/-- Failure mode of load: the source file is missing or unreadable. -/
inductive LoadError where
  | dataSourceUnavailable
deriving DecidableEq

/-- Whole load operation: none models a source that cannot be located or
read (the FileNotFoundError branch); a readable source is the list of its
raw rows, and load keeps exactly the rows whose date cell coerces. -/
def loadData (src : Option (List RawRow)) : Except LoadError (List Record) :=
  match src with
  | none => Except.error LoadError.dataSourceUnavailable
  | some rows => Except.ok (rows.filterMap loadRow)

/-- The filter selection held in the session state: multiselect values for
country, segment, year and quarter, and the two ends of the date range. -/
structure Selection where
  countries : List String
  segments : List String
  years : List Nat
  quarters : List String
  startDate : Date
  endDate : Date

/-- The conjunctive row predicate of the filtered data frame: membership
in each of the four multiselect lists and the inclusive date range. -/
def recordPasses (sel : Selection) (r : Record) : Bool :=
  sel.countries.contains r.country &&
  sel.segments.contains r.segment &&
  sel.years.contains r.year &&
  sel.quarters.contains r.quarter &&
  dateLe sel.startDate r.date &&
  dateLe r.date sel.endDate

/-- The filtered data frame: the rows of the working set satisfying the
five criteria, in their original order. -/
def filtered_df (rs : List Record) (sel : Selection) : List Record :=
  rs.filter (recordPasses sel)

/-- Sum of one numeric column over a list of records, skipping missing
values, exactly as the pandas Series.sum does. -/
def colSum (f : Record → Option ℚ) (rs : List Record) : ℚ :=
  rs.foldl (fun acc r => acc + (f r).getD 0) 0

/-- KPI scalar: sum of the Sales column over the filtered rows. -/
def total_sales (rs : List Record) : ℚ :=
  colSum Record.sales rs

/-- KPI scalar: sum of the Gross Sales column over the filtered rows. -/
def total_gross_sales (rs : List Record) : ℚ :=
  colSum Record.grossSales rs

/-- KPI scalar: sum of the Profit column over the filtered rows. -/
def total_profit (rs : List Record) : ℚ :=
  colSum Record.profit rs

/-- KPI scalar: sum of Gross Sales minus sum of COGS. -/
def gross_profit (rs : List Record) : ℚ :=
  colSum Record.grossSales rs - colSum Record.cogs rs

/-- KPI scalar: sum of Profit minus sum of Total Discounts. -/
def net_profit_calc (rs : List Record) : ℚ :=
  colSum Record.profit rs - colSum Record.totalDiscounts rs

/-- The distinct years of the filtered rows, sorted ascending, as the
sorted unique year values that index the profit-and-loss table. -/
def yearsInData (rs : List Record) : List Nat :=
  List.insertionSort (· ≤ ·) (rs.map Record.year).dedup

/-- One column of the profit-and-loss statement table. -/
structure PnlRow where
  sales : ℚ
  costOfSales : ℚ
  grossProfit : ℚ
  operatingExpenses : ℚ
  ebitda : ℚ
  operatingProfit : ℚ
  netProfit : ℚ
deriving DecidableEq

/-- The profit-and-loss entries of one year: sums over the rows of that
year, with gross profit the difference of the gross sales and cogs sums,
EBITDA and operating profit both aliased to the profit sum, and net
profit the profit sum minus the total discounts sum. -/
def pnlRow (rs : List Record) (y : Nat) : PnlRow :=
  let ydf := rs.filter (fun r => r.year == y)
  { sales := colSum Record.sales ydf
    costOfSales := colSum Record.cogs ydf
    grossProfit := colSum Record.grossSales ydf - colSum Record.cogs ydf
    operatingExpenses := colSum Record.operatingExpenses ydf
    ebitda := colSum Record.profit ydf
    operatingProfit := colSum Record.profit ydf
    netProfit := colSum Record.profit ydf - colSum Record.totalDiscounts ydf }

/-- The profit-and-loss table: one column per distinct year of the
filtered rows, years sorted ascending. -/
def pnl_data (rs : List Record) : List (Nat × PnlRow) :=
  (yearsInData rs).map (fun y => (y, pnlRow rs y))

/-- Trend view: per year, the sums of sales, gross sales and profit. -/
def sales_profit_over_time (rs : List Record) : List (Nat × ℚ × ℚ × ℚ) :=
  (yearsInData rs).map (fun y =>
    let g := rs.filter (fun r => r.year == y)
    (y, colSum Record.sales g, colSum Record.grossSales g, colSum Record.profit g))

/-- Country rollup: per distinct country, the sums of sales, gross sales
and profit. -/
def sales_profit_by_country (rs : List Record) : List (String × ℚ × ℚ × ℚ) :=
  ((rs.map Record.country).dedup).map (fun c =>
    let g := rs.filter (fun r => r.country == c)
    (c, colSum Record.sales g, colSum Record.grossSales g, colSum Record.profit g))

/-- Heat map pivot: per distinct product and discount band pair present
in the filtered rows, the sum of sales over the matching rows. -/
def heatmap_data (rs : List Record) : List ((String × String) × ℚ) :=
  ((rs.map (fun r => (r.product, r.discountBand))).dedup).map (fun pb =>
    (pb, colSum Record.sales (rs.filter
      (fun r => r.product == pb.1 && r.discountBand == pb.2))))

/-- A complete raw row used as the base of the concrete test rows. -/
def baseRow : RawRow :=
  { country := "US"
    segment := "Government"
    product := "Carretera"
    discountBand := "None"
    date := "2023-01-15"
    unitsSold := "1"
    manufacturingPrice := "3"
    salePrice := "20"
    grossSales := "120"
    discounts := "10"
    sales := "100"
    cogs := "40"
    profit := "20"
    operatingExpenses := none }

/-- Scenario row A of the specification. -/
def rowA : RawRow := baseRow

/-- Scenario row B of the specification: every currency amount zero. -/
def rowB : RawRow :=
  { baseRow with
    country := "CA"
    date := "2023-02-10"
    grossSales := "0"
    discounts := "0"
    sales := "0"
    cogs := "0"
    profit := "0" }

/-- A row whose date cell does not parse. -/
def badRow : RawRow :=
  { baseRow with date := "bad" }

/-- A row with a negative sales cell. -/
def negRow : RawRow :=
  { baseRow with sales := "-100" }

/-- A row with a negative discounts cell. -/
def discRow : RawRow :=
  { baseRow with discounts := "-10" }

/-- A row whose discounts cell fails currency coercion. -/
def naRow : RawRow :=
  { baseRow with
    discounts := "N/A"
    grossSales := "100"
    sales := "50"
    cogs := "20"
    profit := "10" }

/-- A placeholder record used only as the default of Option.getD. -/
def dummyRec : Record :=
  { country := ""
    segment := ""
    product := ""
    discountBand := ""
    date := ⟨1970, 1, 1⟩
    unitsSold := none
    manufacturingPrice := none
    salePrice := none
    grossSales := none
    discounts := none
    sales := none
    cogs := none
    profit := none
    operatingExpenses := none
    year := 1970
    monthName := "January"
    quarter := "Qtr 1"
    profitMargin := some 0
    totalDiscounts := none
    totalRevenue := none
    cogsToSales := some 0
    netSales := none }

/-- The record loaded from scenario row A. -/
def recA : Record := (loadRow rowA).getD dummyRec

/-- The record loaded from scenario row B. -/
def recB : Record := (loadRow rowB).getD dummyRec

/-- The record loaded from the negative sales row. -/
def negRec : Record := (loadRow negRow).getD dummyRec

/-- The record loaded from the negative discounts row. -/
def discRec : Record := (loadRow discRow).getD dummyRec

/-- A selection whose country multiselect is empty. -/
def selEmptyCountries : Selection :=
  { countries := []
    segments := ["Government"]
    years := [2023]
    quarters := ["Qtr 1"]
    startDate := ⟨2023, 1, 1⟩
    endDate := ⟨2023, 12, 31⟩ }

/-- The fold computing a column sum equals the sum of the mapped list. -/
theorem colSum_eq_sum (f : Record → Option ℚ) (rs : List Record) :
    colSum f rs = (rs.map (fun r => (f r).getD 0)).sum := by
  suffices h : ∀ a : ℚ,
      rs.foldl (fun acc r => acc + (f r).getD 0) a =
        a + (rs.map (fun r => (f r).getD 0)).sum by
    simpa [colSum] using h 0
  induction rs with
  | nil => intro a; simp
  | cons hd tl ih => intro a; simp [ih]; ring

/-- A zero or missing denominator makes the filled ratio exactly zero. -/
theorem fillna_optDiv_degenerate (p s : Option ℚ) (hs : s = none ∨ s = some 0) :
    fillna 0 (optDiv p (replaceZero s)) = some 0 := by
  rcases hs with h | h <;> subst h <;> cases p <;> simp [fillna, optDiv, replaceZero]

/-- Field equations of a successfully loaded row. -/
theorem loadRow_fields (row : RawRow) (r : Record) (h : loadRow row = some r) :
    r.sales = parseCurrency row.sales ∧
    r.cogs = parseCurrency row.cogs ∧
    r.profit = parseCurrency row.profit ∧
    r.grossSales = parseCurrency row.grossSales ∧
    r.discounts = parseCurrency row.discounts ∧
    r.profitMargin =
      fillna 0 (optDiv (parseCurrency row.profit) (replaceZero (parseCurrency row.sales))) ∧
    r.cogsToSales =
      fillna 0 (optDiv (parseCurrency row.cogs) (replaceZero (parseCurrency row.sales))) ∧
    r.totalDiscounts = optAbs (parseCurrency row.discounts) ∧
    r.netSales = optSub (parseCurrency row.grossSales) (optAbs (parseCurrency row.discounts)) := by
  cases hparse : parseDate row.date with
  | none => simp [loadRow, hparse] at h
  | some d =>
    simp only [loadRow, hparse, Option.some.injEq] at h
    subst h
    exact ⟨rfl, rfl, rfl, rfl, rfl, rfl, rfl, rfl, rfl⟩

/-- C1: for every record of a loaded dataset the profit margin and the
cogs-to-sales ratio are defined values, never missing, and both are
exactly zero whenever the sales value is zero or missing. -/
theorem ratio_fields_defined_and_zero_on_degenerate
    (src : Option (List RawRow)) (recs : List Record) (r : Record)
    (hload : loadData src = Except.ok recs) (hr : r ∈ recs) :
    r.profitMargin.isSome = true ∧ r.cogsToSales.isSome = true ∧
    ((r.sales = none ∨ r.sales = some 0) →
      r.profitMargin = some 0 ∧ r.cogsToSales = some 0) := by
  cases src with
  | none => simp [loadData] at hload
  | some rows =>
    simp only [loadData, Except.ok.injEq] at hload
    subst hload
    obtain ⟨row, hmem, hlr⟩ := List.mem_filterMap.mp hr
    obtain ⟨hsales, -, -, -, -, hpm, hcts, -, -⟩ := loadRow_fields row r hlr
    refine ⟨by simp [hpm, fillna], by simp [hcts, fillna], ?_⟩
    intro hdeg
    rw [hsales] at hdeg
    exact ⟨by rw [hpm]; exact fillna_optDiv_degenerate _ _ hdeg,
           by rw [hcts]; exact fillna_optDiv_degenerate _ _ hdeg⟩

/-- Witness for C1 at the zero-sales scenario row. -/
theorem ratio_fields_defined_witness :
    loadData (some [rowB]) = Except.ok [recB] ∧ recB.sales = some 0 ∧
    (recB.profitMargin.isSome = true ∧ recB.cogsToSales.isSome = true ∧
     ((recB.sales = none ∨ recB.sales = some 0) →
       recB.profitMargin = some 0 ∧ recB.cogsToSales = some 0)) :=
  ⟨rfl, by decide, ratio_fields_defined_and_zero_on_degenerate
    (some [rowB]) [recB] recB rfl (by simp)⟩

/-- C2: a record is in the filtered view iff it is in the working set and
meets all five criteria, the date range inclusive at both ends; any empty
multiselect dimension makes the view empty. -/
theorem filtered_df_characterisation (rs : List Record) (sel : Selection) :
    (∀ r, r ∈ filtered_df rs sel ↔
      (r ∈ rs ∧ r.country ∈ sel.countries ∧ r.segment ∈ sel.segments ∧
       r.year ∈ sel.years ∧ r.quarter ∈ sel.quarters ∧
       dateLe sel.startDate r.date = true ∧ dateLe r.date sel.endDate = true)) ∧
    (∀ d : Date, dateLe d d = true) ∧
    ((sel.countries = [] ∨ sel.segments = [] ∨ sel.years = [] ∨
      sel.quarters = []) → filtered_df rs sel = []) := by
  refine ⟨?_, ?_, ?_⟩
  · intro r
    simp [filtered_df, recordPasses, List.mem_filter, and_assoc]
  · intro d
    simp [dateLe]
  · intro hempty
    rw [filtered_df, List.filter_eq_nil_iff]
    intro a ha
    rcases hempty with h | h | h | h <;> simp [recordPasses, h]

/-- Witness for C2 at a selection whose country list is empty. -/
theorem filtered_df_characterisation_witness :
    (selEmptyCountries.countries = [] ∨ selEmptyCountries.segments = [] ∨
     selEmptyCountries.years = [] ∨ selEmptyCountries.quarters = []) ∧
    filtered_df [recA] selEmptyCountries = [] :=
  ⟨Or.inl rfl,
   (filtered_df_characterisation [recA] selEmptyCountries).2.2 (Or.inl rfl)⟩

/-- C3: the KPI scalars are exactly the column sums over the filtered
rows, gross profit the difference of the gross sales and cogs sums, net
profit the difference of the profit and total discounts sums. -/
theorem kpi_scalars_eq_sums (rs : List Record) :
    total_sales rs = (rs.map (fun r => (Record.sales r).getD 0)).sum ∧
    total_gross_sales rs = (rs.map (fun r => (Record.grossSales r).getD 0)).sum ∧
    total_profit rs = (rs.map (fun r => (Record.profit r).getD 0)).sum ∧
    gross_profit rs =
      (rs.map (fun r => (Record.grossSales r).getD 0)).sum -
        (rs.map (fun r => (Record.cogs r).getD 0)).sum ∧
    net_profit_calc rs =
      (rs.map (fun r => (Record.profit r).getD 0)).sum -
        (rs.map (fun r => (Record.totalDiscounts r).getD 0)).sum :=
  ⟨colSum_eq_sum _ _, colSum_eq_sum _ _, colSum_eq_sum _ _,
   by simp only [gross_profit, colSum_eq_sum],
   by simp only [net_profit_calc, colSum_eq_sum]⟩

/-- C4: the profit-and-loss table has one column per distinct year of the
filtered rows, years strictly ascending, and every entry is the stated
sum over the rows of that year, EBITDA and operating profit aliased. -/
theorem pnl_table_correct (rs : List Record) (hne : rs ≠ []) :
    List.Pairwise (· < ·) ((pnl_data rs).map Prod.fst) ∧
    (∀ y, y ∈ (pnl_data rs).map Prod.fst ↔ y ∈ rs.map Record.year) ∧
    (∀ p ∈ pnl_data rs,
      p.2.sales =
        ((rs.filter (fun r => r.year == p.1)).map (fun r => (Record.sales r).getD 0)).sum ∧
      p.2.costOfSales =
        ((rs.filter (fun r => r.year == p.1)).map (fun r => (Record.cogs r).getD 0)).sum ∧
      p.2.grossProfit =
        ((rs.filter (fun r => r.year == p.1)).map (fun r => (Record.grossSales r).getD 0)).sum -
          ((rs.filter (fun r => r.year == p.1)).map (fun r => (Record.cogs r).getD 0)).sum ∧
      p.2.operatingExpenses =
        ((rs.filter (fun r => r.year == p.1)).map
          (fun r => (Record.operatingExpenses r).getD 0)).sum ∧
      p.2.ebitda =
        ((rs.filter (fun r => r.year == p.1)).map (fun r => (Record.profit r).getD 0)).sum ∧
      p.2.operatingProfit = p.2.ebitda ∧
      p.2.netProfit =
        ((rs.filter (fun r => r.year == p.1)).map (fun r => (Record.profit r).getD 0)).sum -
          ((rs.filter (fun r => r.year == p.1)).map
            (fun r => (Record.totalDiscounts r).getD 0)).sum) := by
  have hfst : (pnl_data rs).map Prod.fst = yearsInData rs := by
    simp [pnl_data, Function.comp_def]
  refine ⟨?_, ?_, ?_⟩
  · rw [hfst]
    have hsorted : List.Sorted (· ≤ ·) (yearsInData rs) :=
      List.sorted_insertionSort _ _
    have hnodup : (yearsInData rs).Nodup :=
      (List.perm_insertionSort _ _).nodup_iff.mpr (List.nodup_dedup _)
    exact hsorted.lt_of_le hnodup
  · intro y
    rw [hfst]
    unfold yearsInData
    rw [(List.perm_insertionSort _ _).mem_iff, List.mem_dedup]
  · intro p hp
    obtain ⟨y, hy, hpeq⟩ := List.mem_map.mp hp
    subst hpeq
    refine ⟨?_, ?_, ?_, ?_, ?_, ?_, ?_⟩ <;> simp [pnlRow, colSum_eq_sum]

/-- Witness for C4 at a singleton working set. -/
theorem pnl_table_witness :
    ([recA] ≠ []) ∧
    (List.Pairwise (· < ·) ((pnl_data [recA]).map Prod.fst) ∧
     (∀ y, y ∈ (pnl_data [recA]).map Prod.fst ↔ y ∈ [recA].map Record.year) ∧
     (∀ p ∈ pnl_data [recA],
       p.2.sales =
         (([recA].filter (fun r => r.year == p.1)).map
           (fun r => (Record.sales r).getD 0)).sum ∧
       p.2.costOfSales =
         (([recA].filter (fun r => r.year == p.1)).map
           (fun r => (Record.cogs r).getD 0)).sum ∧
       p.2.grossProfit =
         (([recA].filter (fun r => r.year == p.1)).map
           (fun r => (Record.grossSales r).getD 0)).sum -
           (([recA].filter (fun r => r.year == p.1)).map
             (fun r => (Record.cogs r).getD 0)).sum ∧
       p.2.operatingExpenses =
         (([recA].filter (fun r => r.year == p.1)).map
           (fun r => (Record.operatingExpenses r).getD 0)).sum ∧
       p.2.ebitda =
         (([recA].filter (fun r => r.year == p.1)).map
           (fun r => (Record.profit r).getD 0)).sum ∧
       p.2.operatingProfit = p.2.ebitda ∧
       p.2.netProfit =
         (([recA].filter (fun r => r.year == p.1)).map
           (fun r => (Record.profit r).getD 0)).sum -
           (([recA].filter (fun r => r.year == p.1)).map
             (fun r => (Record.totalDiscounts r).getD 0)).sum)) :=
  ⟨by simp, pnl_table_correct [recA] (by simp)⟩

/-- C5 counterexample: cleaning removes every dollar character, not only
a leading one, so the cell 1$2 coerces to 12 under the code while the
cleaning worded by the claim leaves it unparseable. -/
theorem currency_prefix_claim_false :
    parseCurrency ("1$2") = some 12 ∧
    parseDecimal (cleanCurrencySpec ("1$2")) = none ∧
    parseCurrency ("1$2") ≠ parseDecimal (cleanCurrencySpec ("1$2")) :=
  ⟨by decide, by decide, by decide⟩

/-- C5 (amended): every currency cell is cleaned by removing all dollar
characters and all commas and trimming whitespace, then coerced to a
decimal number; a cell that still fails to parse becomes a missing value
for that field only, and the row is loaded whenever its date parses. -/
theorem currency_cells_cleaned_and_coerced :
    parseCurrency ("$1,234.50") = some (2469 / 2) ∧
    parseCurrency ("N/A") = none ∧
    ∀ row d, parseDate row.date = some d →
      (loadRow row).isSome = true ∧
      (loadRow row).map Record.grossSales = some (parseCurrency row.grossSales) ∧
      (loadRow row).map Record.discounts = some (parseCurrency row.discounts) ∧
      (loadRow row).map Record.sales = some (parseCurrency row.sales) ∧
      (loadRow row).map Record.cogs = some (parseCurrency row.cogs) ∧
      (loadRow row).map Record.profit = some (parseCurrency row.profit) := by
  refine ⟨by decide, by decide, ?_⟩
  intro row d h
  simp [loadRow, h]

/-- Witness for C5 at the row whose discounts cell is N/A. -/
theorem currency_cells_witness :
    parseDate naRow.date = some ⟨2023, 1, 15⟩ ∧
    ((loadRow naRow).isSome = true ∧
     (loadRow naRow).map Record.grossSales = some (parseCurrency naRow.grossSales) ∧
     (loadRow naRow).map Record.discounts = some (parseCurrency naRow.discounts) ∧
     (loadRow naRow).map Record.sales = some (parseCurrency naRow.sales) ∧
     (loadRow naRow).map Record.cogs = some (parseCurrency naRow.cogs) ∧
     (loadRow naRow).map Record.profit = some (parseCurrency naRow.profit)) :=
  ⟨by decide,
   (currency_cells_cleaned_and_coerced).2.2 naRow ⟨2023, 1, 15⟩ (by decide)⟩

/-- C6: load fails with the unavailable-source error exactly when the
source cannot be read; a row whose date cell does not parse contributes
nothing to the output; when every row is dropped the load still succeeds
with the empty sequence. -/
theorem load_error_and_date_drop (src : Option (List RawRow)) :
    (loadData src = Except.error LoadError.dataSourceUnavailable ↔ src = none) ∧
    (∀ rows, src = some rows → (∀ row ∈ rows, parseDate row.date = none) →
      loadData src = Except.ok []) ∧
    (∀ row rows, parseDate row.date = none →
      loadData (some (row :: rows)) = loadData (some rows)) := by
  refine ⟨?_, ?_, ?_⟩
  · cases src with
    | none => simp [loadData]
    | some rows => simp [loadData]
  · intro rows hsrc hall
    subst hsrc
    simp only [loadData, Except.ok.injEq]
    rw [List.filterMap_eq_nil_iff]
    intro row hrow
    simp [loadRow, hall row hrow]
  · intro row rows h
    have hnone : loadRow row = none := by simp [loadRow, h]
    simp [loadData, hnone]

/-- Witness for C6: a missing source errors, a sole undated row yields
the empty working set. -/
theorem load_error_witness :
    loadData none = Except.error LoadError.dataSourceUnavailable ∧
    loadData (some [badRow]) = Except.ok [] := by
  constructor
  · exact (load_error_and_date_drop none).1.mpr rfl
  · exact (load_error_and_date_drop (some [badRow])).2.1 [badRow] rfl
      (by intro row hrow; rw [List.mem_singleton] at hrow; subst hrow; decide)

/-- C7: the filtered view is an order-preserving subsequence of the
working set; the embedding is pure, so filtering cannot mutate or
reorder the underlying records. -/
theorem filtered_df_is_sublist (rs : List Record) (sel : Selection) :
    List.Sublist (filtered_df rs sel) rs :=
  List.filter_sublist rs

/-- C8: every aggregation view of the empty filtered sequence is the
degenerate output: zero KPI scalars, empty table, empty groupings and an
empty pivot; as total functions they cannot raise. -/
theorem aggregations_on_empty :
    total_sales [] = 0 ∧ total_gross_sales [] = 0 ∧ total_profit [] = 0 ∧
    gross_profit [] = 0 ∧ net_profit_calc [] = 0 ∧
    pnl_data [] = [] ∧ sales_profit_over_time [] = [] ∧
    sales_profit_by_country [] = [] ∧ heatmap_data [] = [] := by
  refine ⟨rfl, rfl, rfl, by decide, by decide, rfl, rfl, rfl, rfl⟩

/-- C9 counterexample: load does not constrain signs, so a negative
sales cell survives into the working set with a negative value. -/
theorem currency_nonneg_claim_false :
    loadData (some [negRow]) = Except.ok [negRec] ∧
    negRec.sales = some (-100) ∧ ¬ (0 : ℚ) ≤ -100 :=
  ⟨rfl, by decide, by norm_num⟩

/-- C9 (amended): load does not enforce a sign on the parsed currency
columns, which keep whatever value their cell coerces to; among the
derived currency columns, total discounts, the absolute value of the
discounts column, is non-negative whenever it is defined. -/
theorem totalDiscounts_nonneg (row : RawRow) (r : Record) (q : ℚ)
    (hl : loadRow row = some r) (hq : r.totalDiscounts = some q) : 0 ≤ q := by
  obtain ⟨-, -, -, -, -, -, -, htd, -⟩ := loadRow_fields row r hl
  rw [htd] at hq
  cases hv : parseCurrency row.discounts with
  | none => rw [hv] at hq; simp [optAbs] at hq
  | some v =>
    rw [hv] at hq
    simp only [optAbs, Option.map_some', Option.some.injEq] at hq
    exact hq ▸ abs_nonneg v

/-- Witness for the amended C9 at the negative discounts row. -/
theorem totalDiscounts_nonneg_witness :
    loadRow discRow = some discRec ∧ discRec.totalDiscounts = some 10 ∧
    (0 : ℚ) ≤ 10 :=
  ⟨rfl, by decide, totalDiscounts_nonneg discRow discRec 10 rfl (by decide)⟩

/-- C10: the missing-value fill applies only to the two ratio columns: a
row whose discounts cell fails coercion loads with missing total
discounts and missing net sales, while profit margin and cogs-to-sales
are still defined. -/
theorem fill_applies_only_to_ratio_fields :
    (loadRow naRow).map Record.totalDiscounts = some none ∧
    (loadRow naRow).map Record.netSales = some none ∧
    (loadRow naRow).map Record.profitMargin = some (some (1 / 5)) ∧
    (loadRow naRow).map Record.cogsToSales = some (some (2 / 5)) :=
  ⟨by decide, by decide, by decide, by decide⟩

end FP
